import Mathlib

/-!
Shallow embedding of the route handlers of the e-commerce backend
(src/server/Routes/ProductRoutes.js and src/server/Routes/UserRoutes.js).

Each Express handler is translated into a pure Lean function.  The database
lookups (`Model.findById`, `Model.findOne`) that a handler performs are made
explicit: the handler receives the lookup's result (an `Option` of the
document, or the whole collection as a `List` when the handler queries by a
field), and returns the HTTP outcome paired with the persisted state.
JavaScript numbers that carry ratings, prices and quantities are embedded as
`ℚ` (rationals, the exact arithmetic the spec's "arithmetic mean" speaks of);
identifiers and timestamps are `Nat`.
-/

namespace Shop

/-- Outcome of a route handler: either `res.status(s).json(body)` on the
success path, or `res.status(s); throw new Error(msg)` translated by the
shared error boundary into a JSON message body with status `s`. -/
inductive HttpResult (α : Type) where
  | ok (status : Nat) (body : α)
  | err (status : Nat) (message : String)
  deriving Repr, DecidableEq

/-! ## Data model

The Mongoose models themselves (`Models/*.js`) are not part of the route
sources; their field sets are taken from the spec's data-model section and
from the fields the handlers read and write. -/

/-- A product review (spec §3: reviewer name, numeric rating, comment text,
owning user reference). -/
structure Review where
  name : String
  rating : ℚ
  comment : String
  user : Nat
  deriving Repr, DecidableEq

/-- A product (spec §3); only the fields the embedded handlers touch are
carried. `rating` and `numReviews` are the derived aggregates. -/
structure Product where
  _id : Nat
  name : String
  description : String
  image : String
  price : ℚ
  countInStock : Nat
  rating : ℚ
  numReviews : Nat
  reviews : List Review
  deriving Repr, DecidableEq

/-- A cart line (spec §3: product reference + quantity). -/
structure CartItem where
  product : Nat
  quantity : ℚ
  deriving Repr, DecidableEq

/-- A user document (spec §3: name, unique email, stored password, admin
flag, password-reset token + expiry, cart). -/
structure User where
  _id : Nat
  name : String
  email : String
  password : String
  isAdmin : Bool := false
  passwordResetToken : Option String := none
  passwordResetExpires : Option Nat := none
  cart : List CartItem := []
  createdAt : Nat := 0
  deriving Repr, DecidableEq

/-- An order line item. -/
structure OrderItem where
  name : String
  qty : Nat
  image : String
  price : ℚ
  product : Nat
  deriving Repr, DecidableEq

/-- A shipping address. -/
structure ShippingAddress where
  address : String
  city : String
  postalCode : String
  country : String
  deriving Repr, DecidableEq

/-- An order document (spec §3: owning user, line items, shipping address,
payment method, prices, paid/delivered/cancelled flags + timestamps,
free-text status).  `orderItems` is kept as the optional value the create
handler receives, since the handler stores whatever the request carried. -/
structure Order where
  _id : Nat
  user : Nat
  orderItems : Option (List OrderItem)
  shippingAddress : ShippingAddress
  paymentMethod : String
  itemsPrice : ℚ
  taxPrice : ℚ
  shippingPrice : ℚ
  totalPrice : ℚ
  isPaid : Bool := false
  paidAt : Option Nat := none
  isDelivered : Bool := false
  deliveredAt : Option Nat := none
  isCancelled : Bool := false
  cancelledAt : Option Nat := none
  status : Option String := none
  deriving Repr, DecidableEq

/-! ## Product review handler

`productRoute.post("/:id/review", protect, ...)` in ProductRoutes.js:
look up the product, reject with 400 if the requesting user already reviewed
it, otherwise push the review and recompute `numReviews` and `rating`. -/

/-- The authenticated requester attached by `protect` (`req.user`); the
review handler reads its `_id` and `name`. -/
structure ReqUser where
  _id : Nat
  name : String
  deriving Repr, DecidableEq

/-- `product.reviews.reduce((acc, item) => item.rating + acc, 0)`. -/
def sumRatings (reviews : List Review) : ℚ :=
  reviews.foldl (fun acc item => item.rating + acc) 0

/-- Handler of `POST /products/:id/review` (ProductRoutes.js lines 195-230).
Input: the requester, the body fields `rating`/`comment`, and the result of
`Product.findById`.  Output: the HTTP outcome and the persisted product. -/
def addReview (reqUser : ReqUser) (rating : ℚ) (comment : String)
    (product : Option Product) : HttpResult String × Option Product :=
  match product with
  | none => (.err 404 "Product not Found", none)
  | some p =>
    match p.reviews.find? (fun r => r.user == reqUser._id) with
    | some _ => (.err 400 "Product already Reviewed", some p)
    | none =>
      let review : Review :=
        { name := reqUser.name, rating := rating, comment := comment,
          user := reqUser._id }
      let reviews := p.reviews ++ [review]
      let p' : Product :=
        { p with
          reviews := reviews,
          numReviews := reviews.length,
          rating := sumRatings reviews / (reviews.length : ℚ) }
      (.ok 201 "Reviewed Added", some p')

/-- One review submission: the requester together with the body fields. -/
structure Submission where
  user : ReqUser
  rating : ℚ
  comment : String
  deriving Repr, DecidableEq

/-- A sequence of review submissions against one product, each required to
succeed (`none` as soon as one fails). -/
def submitReviews : Product → List Submission → Option Product
  | p, [] => some p
  | p, s :: rest =>
    match addReview s.user s.rating s.comment (some p) with
    | (HttpResult.ok _ _, some p') => submitReviews p' rest
    | _ => none

/-- The derived-aggregate consistency the review handler re-establishes:
`numReviews` is the review count and `rating` their mean. -/
def aggConsistent (p : Product) : Prop :=
  p.numReviews = p.reviews.length ∧
  p.rating = sumRatings p.reviews / (p.reviews.length : ℚ)

/-- No two reviews of the product come from the same user. -/
def uniqueReviewers (reviews : List Review) : Prop :=
  reviews.Pairwise (fun a b => a.user ≠ b.user)

/-! ## Authentication pieces

`generateToken` (utils/generateToken.js), the password hashing hook of the
User model and the `protect` middleware (Middleware/AuthMiddleware.js) are
imported by the route files but are not among the route sources; they are
modelled from the spec. -/

/-- Modelled from the spec: `generateToken` (src/server/utils/generateToken.js,
not among the route sources) signs a bearer credential carrying the user
identifier (spec §2: "signs and validates a bearer credential carrying a user
identifier and expiry"). -/
structure AuthToken where
  userId : Nat
  deriving Repr, DecidableEq

/-- Modelled from the spec: issuing a token for a user id. -/
def generateToken (id : Nat) : AuthToken := ⟨id⟩

/-- Modelled from the spec: the User model's password hashing
(src/server/Models/UserModel.js, not among the route sources); spec §4.3
"persist with hashed password".  Any fixed injective digest serves the
embedding. -/
def hashPassword (p : String) : String := String.append "hashed:" p

/-- Modelled from the spec: `user.matchPassword(password)` verifies the
supplied password against the stored hash (spec §4.3). -/
def matchPassword (u : User) (password : String) : Bool :=
  hashPassword password == u.password

/-- Modelled from the spec: the `protect` middleware
(src/server/Middleware/AuthMiddleware.js, not among the route sources)
resolves the bearer token to a user and fails with 401 when no valid token
is presented (spec §4.1).  The resolved requester, or nothing, is the
middleware's input here. -/
def protectGate (authUser : Option User) : Except (Nat × String) User :=
  match authUser with
  | some u => Except.ok u
  | none => Except.error (401, "Not authorized, no token")

/-! ## User handlers (UserRoutes.js) -/

/-- `User.findOne({ email })` over the user collection. -/
def findUserByEmail (db : List User) (email : String) : Option User :=
  db.find? (fun u => u.email == email)

/-- Body of the 200 response of `POST /login`. -/
structure LoginResponse where
  _id : Nat
  name : String
  email : String
  isAdmin : Bool
  token : AuthToken
  createdAt : Nat
  deriving Repr, DecidableEq

/-- Handler of `POST /login` (UserRoutes.js lines 72-92): look the user up
by email; if found and the password matches, answer 200 with the profile and
a fresh token, otherwise 401 with one generic message. -/
def login (db : List User) (email password : String) : HttpResult LoginResponse :=
  match findUserByEmail db email with
  | some user =>
    if matchPassword user password then
      .ok 200
        { _id := user._id, name := user.name, email := user.email,
          isAdmin := user.isAdmin, token := generateToken user._id,
          createdAt := user.createdAt }
    else .err 401 "Invalid Email or Password"
  | none => .err 401 "Invalid Email or Password"

/-- Body of the 201 response of `POST /users` (register). -/
structure RegisterResponse where
  _id : Nat
  name : String
  email : String
  isAdmin : Bool
  token : AuthToken
  deriving Repr, DecidableEq

/-- Handler of `POST /users` (register, UserRoutes.js lines 154-185): reject
with 400 when a user with the email exists, otherwise create the user (the
model's save hook hashing the password) and answer 201 with a token.
Returns the outcome and the user collection after the handler ran. -/
def register (db : List User) (name email password : String) (newId : Nat) :
    HttpResult RegisterResponse × List User :=
  match findUserByEmail db email with
  | some _ => (.err 400 "User already exists", db)
  | none =>
    let user : User :=
      { _id := newId, name := name, email := email,
        password := hashPassword password }
    (.ok 201
      { _id := user._id, name := user.name, email := user.email,
        isAdmin := user.isAdmin, token := generateToken user._id },
      db ++ [user])

/-- `User.findOne({ passwordResetToken: token })`. -/
def findUserByResetToken (db : List User) (token : String) : Option User :=
  db.find? (fun u => u.passwordResetToken == some token)

/-- Handler of `PUT /users/reset-password/:token` (UserRoutes.js lines
627-651).  Input: the result of the lookup by reset token and the new
password.  When a user is found — the handler consults nothing else, in
particular not `passwordResetExpires` — it sets the new password and clears
both reset fields; otherwise 400. -/
def resetPasswordComplete (found : Option User) (password : String) :
    HttpResult String × Option User :=
  match found with
  | none => (.err 400 "Invalid or expired token", none)
  | some user =>
    let user' : User :=
      { user with
        password := password,
        passwordResetToken := none,
        passwordResetExpires := none }
    (.ok 200 "Password reset successful", some user')

/-- In-place update of the first cart line matching the product, as the
mutation of the result of `user.cart.find(...)` does it. -/
def bumpFirstCartItem : List CartItem → Nat → ℚ → List CartItem
  | [], _, _ => []
  | item :: rest, productId, quantity =>
    if item.product == productId then
      { item with quantity := item.quantity + quantity } :: rest
    else item :: bumpFirstCartItem rest productId quantity

/-- Handler of `POST /users/:id/cart` (UserRoutes.js lines 1188-1218).
Input: the result of `User.findById` and the body's `productId`/`quantity`.
If a cart line for the product exists its quantity is incremented, else a
new line is pushed. -/
def addToCart (found : Option User) (productId : Nat) (quantity : ℚ) :
    HttpResult String × Option User :=
  match found with
  | none => (.err 404 "User not found", none)
  | some user =>
    match user.cart.find? (fun item => item.product == productId) with
    | some _ =>
      let user' := { user with cart := bumpFirstCartItem user.cart productId quantity }
      (.ok 200 "Product added to cart", some user')
    | none =>
      let user' := { user with cart := user.cart ++ [⟨productId, quantity⟩] }
      (.ok 200 "Product added to cart", some user')

/-- The cart invariant of spec §3: at most one line per product. -/
def cartUnique (cart : List CartItem) : Prop :=
  (cart.map CartItem.product).Nodup

/-! ## Order handlers (the order router half of UserRoutes.js) -/

/-- The request body of `POST /orders`; `orderItems` is optional because the
handler guards it with a truthiness check. -/
structure CreateOrderBody where
  orderItems : Option (List OrderItem)
  shippingAddress : ShippingAddress
  paymentMethod : String
  itemsPrice : ℚ
  taxPrice : ℚ
  shippingPrice : ℚ
  totalPrice : ℚ
  deriving Repr, DecidableEq

/-- Handler of `POST /orders` (orderRouter lines 1492-1526): reject with 400
when `orderItems` is present and empty (`orderItems && orderItems.length
=== 0`); otherwise build the order owned by the authenticated user, save it
and answer 201 with it.  Returns the outcome and the persisted order. -/
def createOrder (reqUserId : Nat) (body : CreateOrderBody) (newId : Nat) :
    HttpResult Order × Option Order :=
  let reject : Bool :=
    match body.orderItems with
    | some items => items.length == 0
    | none => false
  if reject then (.err 400 "No order items", none)
  else
    let order : Order :=
      { _id := newId,
        orderItems := body.orderItems,
        user := reqUserId,
        shippingAddress := body.shippingAddress,
        paymentMethod := body.paymentMethod,
        itemsPrice := body.itemsPrice,
        taxPrice := body.taxPrice,
        shippingPrice := body.shippingPrice,
        totalPrice := body.totalPrice }
    (.ok 201 order, some order)

/-- The route `PUT /orders/:id/cancel` (orderRouter lines 2503-2525) with
its `protect` middleware: behind the gate, 404 when the order is absent,
400 when it is already paid, otherwise set `isCancelled` and `cancelledAt`
and answer with the updated order. -/
def cancelOrderPut (authUser : Option User) (order : Option Order) (now : Nat) :
    HttpResult Order × Option Order :=
  match protectGate authUser with
  | Except.error (st, msg) => (.err st msg, order)
  | Except.ok _ =>
    match order with
    | none => (.err 404 "Order not found", none)
    | some o =>
      if o.isPaid then (.err 400 "Cannot cancel a paid order", some o)
      else
        let o' : Order := { o with isCancelled := true, cancelledAt := some now }
        (.ok 200 o', some o')

/-- The route `GET /orders/:id/cancel` (orderRouter lines 1918-1938).  It is
registered with no middleware, so the handler takes no authenticated user at
all: 404 when the order is absent, otherwise set the free-text `status` to
"Cancelled" — with no check of `isPaid` — and answer 200 with the updated
order. -/
def cancelOrderGet (order : Option Order) : HttpResult Order × Option Order :=
  match order with
  | none => (.err 404 "Order not found", none)
  | some o =>
    let o' : Order := { o with status := some "Cancelled" }
    (.ok 200 o', some o')

/-! ## Sample documents, used by the witness theorems -/

/-- A shipping address used in concrete runs. -/
def sampleAddress : ShippingAddress :=
  { address := "Rr. 1", city := "Tirana", postalCode := "1001", country := "AL" }

/-- An order line used in concrete runs. -/
def sampleItem : OrderItem :=
  { name := "Lamp", qty := 1, image := "lamp.png", price := 5, product := 100 }

/-- An unpaid order used in concrete runs. -/
def sampleOrder : Order :=
  { _id := 1, user := 7, orderItems := some [sampleItem],
    shippingAddress := sampleAddress, paymentMethod := "PayPal",
    itemsPrice := 5, taxPrice := 1, shippingPrice := 2, totalPrice := 8 }

/-- The same order already paid. -/
def paidOrder : Order := { sampleOrder with isPaid := true, paidAt := some 3 }

/-- A registered user used in concrete runs. -/
def sampleUser : User :=
  { _id := 7, name := "A", email := "a@x.com", password := hashPassword "p" }

/-- A request body for `POST /orders` used in concrete runs. -/
def sampleOrderBody : CreateOrderBody :=
  { orderItems := some [sampleItem], shippingAddress := sampleAddress,
    paymentMethod := "PayPal", itemsPrice := 5, taxPrice := 1,
    shippingPrice := 2, totalPrice := 8 }

/-! ## Theorems -/

/-- C1: a PUT cancel of a paid order fails with 400 and leaves the order as
it was; a PUT cancel of an unpaid order succeeds and sets the cancelled
flag together with a cancellation timestamp. -/
theorem cancelPut_rejects_paid_and_cancels_unpaid (u : User) (o : Order) (now : Nat) :
    (o.isPaid = true →
      cancelOrderPut (some u) (some o) now =
        (.err 400 "Cannot cancel a paid order", some o)) ∧
    (o.isPaid = false →
      ∃ o', cancelOrderPut (some u) (some o) now = (.ok 200 o', some o') ∧
        o'.isCancelled = true ∧ o'.cancelledAt = some now) := by
  constructor
  · intro h
    simp [cancelOrderPut, protectGate, h]
  · intro h
    exact ⟨{ o with isCancelled := true, cancelledAt := some now },
      by simp [cancelOrderPut, protectGate, h], rfl, rfl⟩

/-- Witness for C1: the paid and the unpaid sample order at time 5. -/
theorem cancelPut_rejects_paid_and_cancels_unpaid_witness :
    (paidOrder.isPaid = true ∧
      cancelOrderPut (some sampleUser) (some paidOrder) 5 =
        (.err 400 "Cannot cancel a paid order", some paidOrder)) ∧
    (sampleOrder.isPaid = false ∧
      ∃ o', cancelOrderPut (some sampleUser) (some sampleOrder) 5 = (.ok 200 o', some o') ∧
        o'.isCancelled = true ∧ o'.cancelledAt = some 5) :=
  ⟨⟨rfl, (cancelPut_rejects_paid_and_cancels_unpaid sampleUser paidOrder 5).1 rfl⟩,
   ⟨rfl, (cancelPut_rejects_paid_and_cancels_unpaid sampleUser sampleOrder 5).2 rfl⟩⟩

/-- C9: the GET cancel route, registered without any middleware, takes no
authenticated user at all and succeeds with 200 on every existing order —
also a paid one — setting the free-text status to "Cancelled"; on the same
paid order the PUT route never succeeds, answering 400 behind the gate or
401 without it. -/
theorem cancelGet_bypasses_auth_and_paid_check (o : Order) :
    (cancelOrderGet (some o) =
      (.ok 200 { o with status := some "Cancelled" },
        some { o with status := some "Cancelled" })) ∧
    (o.isPaid = true → ∀ authUser now, ∃ st msg,
      cancelOrderPut authUser (some o) now = (.err st msg, some o) ∧
        (st = 400 ∨ st = 401)) := by
  refine ⟨rfl, fun h authUser now => ?_⟩
  cases authUser with
  | none => exact ⟨401, "Not authorized, no token", by simp [cancelOrderPut, protectGate], Or.inr rfl⟩
  | some u => exact ⟨400, "Cannot cancel a paid order", by simp [cancelOrderPut, protectGate, h], Or.inl rfl⟩

/-- Witness for C9: the paid sample order, cancelled through the GET route
with no user present, against the PUT route with no token. -/
theorem cancelGet_bypasses_auth_and_paid_check_witness :
    (cancelOrderGet (some paidOrder) =
      (.ok 200 { paidOrder with status := some "Cancelled" },
        some { paidOrder with status := some "Cancelled" })) ∧
    paidOrder.isPaid = true ∧
    (∃ st msg, cancelOrderPut none (some paidOrder) 5 = (.err st msg, some paidOrder) ∧
      (st = 400 ∨ st = 401)) :=
  ⟨(cancelGet_bypasses_auth_and_paid_check paidOrder).1, rfl,
   (cancelGet_bypasses_auth_and_paid_check paidOrder).2 rfl none 5⟩

/-- C4: creating an order from a present-but-empty item list fails with 400
and persists nothing; from a non-empty item list it persists an order owned
by the authenticated user and answers 201 with that order. -/
theorem createOrder_rejects_empty_items (uid nid : Nat) (body : CreateOrderBody) :
    (body.orderItems = some [] →
      createOrder uid body nid = (.err 400 "No order items", none)) ∧
    (∀ items, body.orderItems = some items → items ≠ [] →
      ∃ o, createOrder uid body nid = (.ok 201 o, some o) ∧
        o.user = uid ∧ o.orderItems = some items) := by
  constructor
  · intro h
    simp [createOrder, h]
  · intro items h hne
    exact ⟨{ _id := nid, user := uid, orderItems := some items,
             shippingAddress := body.shippingAddress,
             paymentMethod := body.paymentMethod,
             itemsPrice := body.itemsPrice, taxPrice := body.taxPrice,
             shippingPrice := body.shippingPrice, totalPrice := body.totalPrice },
      by simp [createOrder, h, hne], rfl, rfl⟩

/-- Witness for C4: the sample body with its items emptied, and as is. -/
theorem createOrder_rejects_empty_items_witness :
    ({ sampleOrderBody with orderItems := some [] }.orderItems = some ([] : List OrderItem) ∧
      createOrder 7 { sampleOrderBody with orderItems := some [] } 2 =
        (.err 400 "No order items", none)) ∧
    (sampleOrderBody.orderItems = some [sampleItem] ∧ [sampleItem] ≠ [] ∧
      ∃ o, createOrder 7 sampleOrderBody 2 = (.ok 201 o, some o) ∧
        o.user = 7 ∧ o.orderItems = some [sampleItem]) :=
  ⟨⟨rfl, (createOrder_rejects_empty_items 7 2 _).1 rfl⟩,
   ⟨rfl, by simp,
    (createOrder_rejects_empty_items 7 2 sampleOrderBody).2 [sampleItem] rfl (by simp)⟩⟩

/-- C10: a creation body whose `orderItems` field is absent is not rejected:
the handler persists an order owned by the authenticated user carrying no
items and answers 201 with it. -/
theorem createOrder_accepts_absent_items (uid nid : Nat) (body : CreateOrderBody)
    (h : body.orderItems = none) :
    ∃ o, createOrder uid body nid = (.ok 201 o, some o) ∧
      o.user = uid ∧ o.orderItems = none := by
  exact ⟨{ _id := nid, user := uid, orderItems := none,
           shippingAddress := body.shippingAddress,
           paymentMethod := body.paymentMethod,
           itemsPrice := body.itemsPrice, taxPrice := body.taxPrice,
           shippingPrice := body.shippingPrice, totalPrice := body.totalPrice },
    by simp [createOrder, h], rfl, rfl⟩

/-- Witness for C10: the sample body with `orderItems` removed. -/
theorem createOrder_accepts_absent_items_witness :
    { sampleOrderBody with orderItems := none }.orderItems = none ∧
    ∃ o, createOrder 7 { sampleOrderBody with orderItems := none } 2 = (.ok 201 o, some o) ∧
      o.user = 7 ∧ o.orderItems = none :=
  ⟨rfl, createOrder_accepts_absent_items 7 2 _ rfl⟩

/-- C6: registering with a taken email fails with 400 and "User already
exists" and leaves the user collection unchanged; otherwise a new user with
the given data is appended and the 201 response carries a token for that
user's id. -/
theorem register_spec (db : List User) (name email password : String) (newId : Nat) :
    ((findUserByEmail db email).isSome →
      register db name email password newId = (.err 400 "User already exists", db)) ∧
    (findUserByEmail db email = none →
      ∃ u resp, register db name email password newId = (.ok 201 resp, db ++ [u]) ∧
        u._id = newId ∧ u.name = name ∧ u.email = email ∧
        resp._id = u._id ∧ resp.token = generateToken u._id) := by
  constructor
  · intro h
    obtain ⟨u, hu⟩ := Option.isSome_iff_exists.mp h
    simp [register, hu]
  · intro h
    exact ⟨{ _id := newId, name := name, email := email,
             password := hashPassword password },
      { _id := newId, name := name, email := email, isAdmin := false,
        token := generateToken newId },
      by simp [register, h], rfl, rfl, rfl, rfl, rfl⟩

/-- Witness for C6: registering "a@x.com" against a collection that already
holds it, and against the empty collection. -/
theorem register_spec_witness :
    ((findUserByEmail [sampleUser] "a@x.com").isSome ∧
      register [sampleUser] "B" "a@x.com" "q" 8 =
        (.err 400 "User already exists", [sampleUser])) ∧
    (findUserByEmail [] "a@x.com" = none ∧
      ∃ u resp, register [] "A" "a@x.com" "p" 7 = (.ok 201 resp, [] ++ [u]) ∧
        u._id = 7 ∧ u.name = "A" ∧ u.email = "a@x.com" ∧
        resp._id = u._id ∧ resp.token = generateToken u._id) :=
  ⟨⟨by decide, (register_spec [sampleUser] "B" "a@x.com" "q" 8).1 (by decide)⟩,
   ⟨rfl, (register_spec [] "A" "a@x.com" "p" 7).2 rfl⟩⟩

/-- C7: the two failing login runs — email matching no user, and known
email with a non-matching password — produce the identical outcome: status
401 with the same generic message. -/
theorem login_failures_indistinguishable (db : List User) (e1 p1 e2 p2 : String)
    (u : User) (h1 : findUserByEmail db e1 = none)
    (h2 : findUserByEmail db e2 = some u)
    (h3 : matchPassword u p2 = false) :
    login db e1 p1 = .err 401 "Invalid Email or Password" ∧
    login db e2 p2 = .err 401 "Invalid Email or Password" ∧
    login db e1 p1 = login db e2 p2 := by
  refine ⟨?_, ?_, ?_⟩ <;> simp [login, h1, h2, h3]

/-- Witness for C7: the sample collection with an unknown email on one side
and the known email with a wrong password on the other. -/
theorem login_failures_indistinguishable_witness :
    findUserByEmail [sampleUser] "b@x.com" = none ∧
    findUserByEmail [sampleUser] "a@x.com" = some sampleUser ∧
    matchPassword sampleUser "wrong" = false ∧
    (login [sampleUser] "b@x.com" "p" = .err 401 "Invalid Email or Password" ∧
      login [sampleUser] "a@x.com" "wrong" = .err 401 "Invalid Email or Password" ∧
      login [sampleUser] "b@x.com" "p" = login [sampleUser] "a@x.com" "wrong") :=
  ⟨by decide, by decide, by decide,
    login_failures_indistinguishable [sampleUser] "b@x.com" "p" "a@x.com" "wrong"
      sampleUser (by decide) (by decide) (by decide)⟩

/-- A user whose stored password-reset expiry (5) lies in the past for every
later instant, carrying the reset token "tok". -/
def expiredResetUser : User :=
  { _id := 3, name := "R", email := "r@x.com", password := hashPassword "old",
    passwordResetToken := some "tok", passwordResetExpires := some 5 }

/-- C8 (code divergence): the completion handler looks the user up by token
alone and never consults `passwordResetExpires`; on a user whose stored
expiry (5) has passed it still resets the password with 200 instead of
rejecting with 400. -/
theorem resetPassword_ignores_expiry :
    expiredResetUser.passwordResetExpires = some 5 ∧
    findUserByResetToken [expiredResetUser] "tok" = some expiredResetUser ∧
    resetPasswordComplete (findUserByResetToken [expiredResetUser] "tok") "newpw" =
      (.ok 200 "Password reset successful",
        some { expiredResetUser with
               password := "newpw",
               passwordResetToken := none,
               passwordResetExpires := none }) :=
  ⟨rfl, by decide, by decide⟩

/-- The JavaScript `reduce` over ratings is the sum of the rating list. -/
theorem foldl_add_rating (l : List Review) : ∀ a : ℚ,
    l.foldl (fun acc item => item.rating + acc) a = (l.map Review.rating).sum + a := by
  induction l with
  | nil => intro a; simp
  | cons x xs ih =>
    intro a
    rw [List.foldl_cons, ih (x.rating + a), List.map_cons, List.sum_cons]
    ring

/-- `sumRatings` agrees with the sum of the rating list. -/
theorem sumRatings_eq_sum (l : List Review) :
    sumRatings l = (l.map Review.rating).sum := by
  rw [sumRatings, foldl_add_rating]
  simp

/-- A run of successful submissions appends exactly the submitted ratings to
the review list, and — as soon as at least one submission happened — leaves
the aggregates consistent: `numReviews` is the review count and `rating`
their mean. -/
theorem submitReviews_ok : ∀ (subs : List Submission) (p p' : Product),
    submitReviews p subs = some p' →
    p'.reviews.map Review.rating =
      p.reviews.map Review.rating ++ subs.map Submission.rating ∧
    (subs ≠ [] → aggConsistent p') := by
  intro subs
  induction subs with
  | nil =>
    intro p p' h
    rw [submitReviews] at h
    cases h
    exact ⟨by simp, fun hne => absurd rfl hne⟩
  | cons s rest ih =>
    intro p p' h
    rw [submitReviews] at h
    cases hf : p.reviews.find? (fun rv => rv.user == s.user._id) with
    | some rv =>
      simp only [addReview, hf] at h
      cases h
    | none =>
      simp only [addReview, hf] at h
      obtain ⟨hmap, hagg⟩ := ih _ p' h
      constructor
      · rw [hmap]
        simp [Submission.rating]
      · intro _
        cases rest with
        | nil =>
          rw [submitReviews] at h
          cases h
          exact ⟨rfl, rfl⟩
        | cons s2 rest' => exact hagg (by simp)

/-- C2: starting from a product with no reviews, after N successful
submissions with ratings r1..rN the product's `rating` is the arithmetic
mean (r1+...+rN)/N, and `numReviews` is N, the length of the review list. -/
theorem review_aggregates_mean (p p' : Product) (subs : List Submission)
    (h0 : p.reviews = []) (hn : subs ≠ [])
    (h : submitReviews p subs = some p') :
    p'.rating = (subs.map Submission.rating).sum / (subs.length : ℚ) ∧
    p'.numReviews = subs.length ∧
    p'.reviews.length = subs.length := by
  obtain ⟨hmap, hagg⟩ := submitReviews_ok subs p p' h
  rw [h0, List.map_nil, List.nil_append] at hmap
  have hlen : p'.reviews.length = subs.length := by
    have := congrArg List.length hmap
    simpa using this
  obtain ⟨hnum, hrat⟩ := hagg hn
  refine ⟨?_, ?_, hlen⟩
  · rw [hrat, sumRatings_eq_sum, hmap, hlen]
  · rw [hnum, hlen]

/-- A product with no reviews yet, used in concrete runs. -/
def sampleProduct : Product :=
  { _id := 100, name := "Lamp", description := "warm", image := "lamp.png",
    price := 5, countInStock := 3, rating := 0, numReviews := 0, reviews := [] }

/-- Two review submissions by distinct users with ratings 4 and 2. -/
def sampleSubs : List Submission :=
  [{ user := ⟨1, "A"⟩, rating := 4, comment := "ok" },
   { user := ⟨2, "B"⟩, rating := 2, comment := "meh" }]

/-- The sample product after the two sample submissions. -/
def sampleReviewedTwice : Product :=
  (submitReviews sampleProduct sampleSubs).getD sampleProduct

/-- Witness for C2: the two sample submissions leave rating (4+2)/2 = 3 and
numReviews 2. -/
theorem review_aggregates_mean_witness :
    sampleProduct.reviews = [] ∧ sampleSubs ≠ [] ∧
    submitReviews sampleProduct sampleSubs = some sampleReviewedTwice ∧
    (sampleReviewedTwice.rating =
        (sampleSubs.map Submission.rating).sum / (sampleSubs.length : ℚ) ∧
      sampleReviewedTwice.numReviews = sampleSubs.length ∧
      sampleReviewedTwice.reviews.length = sampleSubs.length) :=
  ⟨rfl, by decide, rfl,
    review_aggregates_mean sampleProduct sampleReviewedTwice sampleSubs rfl
      (by decide) rfl⟩

/-- C3: when the product's review list already holds a review by the
requesting user, the submission fails with 400 and the product — its review
list, rating and numReviews with it — is returned unchanged; and the
handler preserves the at-most-one-review-per-user invariant whatever it
answers. -/
theorem review_once_per_user (p : Product) (u : ReqUser) (r : ℚ) (c : String) :
    ((∃ rev ∈ p.reviews, rev.user = u._id) →
      addReview u r c (some p) = (.err 400 "Product already Reviewed", some p)) ∧
    (uniqueReviewers p.reviews →
      ∀ res p', addReview u r c (some p) = (res, some p') →
        uniqueReviewers p'.reviews) := by
  constructor
  · rintro ⟨rev, hmem, huser⟩
    have hs : (p.reviews.find? (fun rv => rv.user == u._id)).isSome := by
      rw [List.find?_isSome]
      exact ⟨rev, hmem, by simp [huser]⟩
    obtain ⟨rv, hrv⟩ := Option.isSome_iff_exists.mp hs
    simp [addReview, hrv]
  · intro huniq res p' h
    cases hf : p.reviews.find? (fun rv => rv.user == u._id) with
    | some rv =>
      simp only [addReview, hf, Prod.mk.injEq, Option.some.injEq] at h
      rw [← h.2]
      exact huniq
    | none =>
      simp only [addReview, hf, Prod.mk.injEq, Option.some.injEq] at h
      rw [← h.2]
      show uniqueReviewers (p.reviews ++ [_])
      rw [uniqueReviewers, List.pairwise_append]
      refine ⟨huniq, List.pairwise_singleton _ _, ?_⟩
      intro a ha b hb
      rw [List.mem_singleton] at hb
      subst hb
      have := List.find?_eq_none.mp hf a ha
      simpa using this

/-- The sample product carrying one review by user 7. -/
def sampleProductReviewed : Product :=
  { sampleProduct with
    reviews := [{ name := "A", rating := 4, comment := "ok", user := 7 }],
    numReviews := 1, rating := 4 }

/-- The reviewed sample product after a further review by user 8. -/
def sampleProductReviewedAgain : Product :=
  ((addReview ⟨8, "B"⟩ 2 "meh" (some sampleProductReviewed)).2).getD sampleProductReviewed

/-- Witness for C3: user 7 reviewing the product they already reviewed is
rejected with the product unchanged, and the invariant survives user 8's
fresh review. -/
theorem review_once_per_user_witness :
    ((∃ rev ∈ sampleProductReviewed.reviews, rev.user = (⟨7, "A"⟩ : ReqUser)._id) ∧
      addReview ⟨7, "A"⟩ 5 "again" (some sampleProductReviewed) =
        (.err 400 "Product already Reviewed", some sampleProductReviewed)) ∧
    (uniqueReviewers sampleProductReviewed.reviews ∧
      uniqueReviewers sampleProductReviewedAgain.reviews) :=
  ⟨⟨by decide,
    (review_once_per_user sampleProductReviewed ⟨7, "A"⟩ 5 "again").1 (by decide)⟩,
   ⟨by simp [uniqueReviewers, sampleProductReviewed, sampleProduct],
    (review_once_per_user sampleProductReviewed ⟨8, "B"⟩ 2 "meh").2
      (by simp [uniqueReviewers, sampleProductReviewed, sampleProduct])
      (addReview ⟨8, "B"⟩ 2 "meh" (some sampleProductReviewed)).1
      sampleProductReviewedAgain rfl⟩⟩

/-- Bumping the first matching cart line keeps the product column. -/
theorem bumpFirst_map_product (pid : Nat) (q : ℚ) : ∀ cart : List CartItem,
    (bumpFirstCartItem cart pid q).map CartItem.product =
      cart.map CartItem.product := by
  intro cart
  induction cart with
  | nil => rfl
  | cons item rest ih =>
    rw [bumpFirstCartItem]
    by_cases h : (item.product == pid) = true
    · simp only [h, if_true, List.map_cons]
    · simp only [h, if_false, Bool.false_eq_true, List.map_cons, ih]

/-- Under the uniqueness invariant, bumping puts the matching line, with its
quantity incremented, in the cart. -/
theorem bumpFirst_mem (pid : Nat) (q : ℚ) : ∀ (cart : List CartItem),
    cartUnique cart → ∀ it ∈ cart, it.product = pid →
    (⟨pid, it.quantity + q⟩ : CartItem) ∈ bumpFirstCartItem cart pid q := by
  intro cart
  induction cart with
  | nil => intro _ it hmem; cases hmem
  | cons head rest ih =>
    intro hnd it hmem hp
    obtain ⟨hhead, hrest⟩ := List.nodup_cons.mp hnd
    rw [bumpFirstCartItem]
    rcases List.mem_cons.mp hmem with rfl | hmem'
    · rw [if_pos (by simp [hp])]
      subst hp
      exact List.mem_cons_self _ _
    · by_cases hh : (head.product == pid) = true
      · exfalso
        apply hhead
        rw [show head.product = pid from by simpa using hh, ← hp]
        exact List.mem_map_of_mem CartItem.product hmem'
      · rw [if_neg hh]
        exact List.mem_cons_of_mem _ (ih hrest it hmem' hp)

/-- C5: adding a product already in the cart succeeds, keeps the cart's
length and product column, and — under the invariant — increments the
matching line's quantity; adding a product not in the cart appends exactly
one line; and the handler preserves the one-line-per-product invariant. -/
theorem cart_merge_by_product (user : User) (pid : Nat) (q : ℚ) :
    ((∃ it ∈ user.cart, it.product = pid) →
      ∃ u', addToCart (some user) pid q = (.ok 200 "Product added to cart", some u') ∧
        u'.cart.map CartItem.product = user.cart.map CartItem.product ∧
        u'.cart.length = user.cart.length ∧
        (cartUnique user.cart → ∀ it ∈ user.cart, it.product = pid →
          (⟨pid, it.quantity + q⟩ : CartItem) ∈ u'.cart)) ∧
    ((¬ ∃ it ∈ user.cart, it.product = pid) →
      ∃ u', addToCart (some user) pid q = (.ok 200 "Product added to cart", some u') ∧
        u'.cart = user.cart ++ [⟨pid, q⟩]) ∧
    (cartUnique user.cart →
      ∀ res u', addToCart (some user) pid q = (res, some u') →
        cartUnique u'.cart) := by
  refine ⟨?_, ?_, ?_⟩
  · rintro ⟨it, hmem, hp⟩
    have hs : (user.cart.find? (fun item => item.product == pid)).isSome := by
      rw [List.find?_isSome]
      exact ⟨it, hmem, by simp [hp]⟩
    obtain ⟨item, hitem⟩ := Option.isSome_iff_exists.mp hs
    refine ⟨{ user with cart := bumpFirstCartItem user.cart pid q },
      by simp [addToCart, hitem], bumpFirst_map_product pid q user.cart, ?_, ?_⟩
    · have := congrArg List.length (bumpFirst_map_product pid q user.cart)
      simpa using this
    · intro hnd it' hmem' hp'
      exact bumpFirst_mem pid q user.cart hnd it' hmem' hp'
  · intro hno
    have hf : user.cart.find? (fun item => item.product == pid) = none := by
      rw [List.find?_eq_none]
      intro it hmem
      simp only [beq_iff_eq]
      exact fun hp => hno ⟨it, hmem, hp⟩
    exact ⟨{ user with cart := user.cart ++ [⟨pid, q⟩] },
      by simp [addToCart, hf], rfl⟩
  · intro hnd res u' h
    cases hf : user.cart.find? (fun item => item.product == pid) with
    | some item =>
      simp only [addToCart, hf, Prod.mk.injEq, Option.some.injEq] at h
      rw [← h.2]
      show cartUnique (bumpFirstCartItem user.cart pid q)
      rw [cartUnique, bumpFirst_map_product]
      exact hnd
    | none =>
      simp only [addToCart, hf, Prod.mk.injEq, Option.some.injEq] at h
      rw [← h.2]
      show cartUnique (user.cart ++ [_])
      rw [cartUnique, List.map_append, List.nodup_append]
      refine ⟨hnd, List.nodup_singleton _, ?_⟩
      intro a ha hb
      rw [List.map_singleton, List.mem_singleton] at hb
      subst hb
      obtain ⟨it, hmem, hpe⟩ := List.mem_map.mp ha
      have := List.find?_eq_none.mp hf it hmem
      simp only [beq_iff_eq] at this
      exact this hpe

/-- The sample user with one cart line: product 100, quantity 2. -/
def cartUser : User := { sampleUser with cart := [⟨100, 2⟩] }

/-- The cart user after re-adding product 100 with quantity 3. -/
def cartUserBumped : User :=
  ((addToCart (some cartUser) 100 3).2).getD cartUser

/-- Witness for C5: re-adding product 100 merges into the existing line,
adding product 200 appends a line, and the invariant survives the merge. -/
theorem cart_merge_by_product_witness :
    ((∃ it ∈ cartUser.cart, it.product = 100) ∧
      (∃ u', addToCart (some cartUser) 100 3 =
          (.ok 200 "Product added to cart", some u') ∧
        u'.cart.map CartItem.product = cartUser.cart.map CartItem.product ∧
        u'.cart.length = cartUser.cart.length ∧
        (cartUnique cartUser.cart → ∀ it ∈ cartUser.cart, it.product = 100 →
          (⟨100, it.quantity + 3⟩ : CartItem) ∈ u'.cart))) ∧
    ((¬ ∃ it ∈ cartUser.cart, it.product = 200) ∧
      (∃ u', addToCart (some cartUser) 200 3 =
          (.ok 200 "Product added to cart", some u') ∧
        u'.cart = cartUser.cart ++ [⟨200, 3⟩])) ∧
    (cartUnique cartUser.cart ∧ cartUnique cartUserBumped.cart) :=
  ⟨⟨by decide, (cart_merge_by_product cartUser 100 3).1 (by decide)⟩,
   ⟨by decide, (cart_merge_by_product cartUser 200 3).2.1 (by decide)⟩,
   ⟨by simp [cartUnique, cartUser, sampleUser],
    (cart_merge_by_product cartUser 100 3).2.2
      (by simp [cartUnique, cartUser, sampleUser])
      (addToCart (some cartUser) 100 3).1 cartUserBumped rfl⟩⟩
end Shop
